import Mathlib

/-!
Shallow embedding of `src/managers/cff_manager.py` (the CFF author merge
engine of `action-update-cff-authors`): the author-type classifier
(`get_cff_author_type`), the identity predicate (`is_same_person`), the
provenance-note formatter (`get_contribution_note_for_warning`) and the
per-contributor merge loop of `update_cff`.

Modelling conventions:
* a Python author `dict` becomes an `AuthorRecord` whose fields are
  `Option String` (`none` = key absent); `d.get(k, "")` is `fget`;
* Python truthiness of an optional string is `optTruthy`, and `x or y`
  on strings is `pythonOr`;
* `str.casefold()` is modelled as per-character ASCII lowercasing
  (`pyCasefold`), `str.strip()` as `pyStrip` over the standard
  whitespace characters, `s.split(" ", 1)` as `split_first_space`;
* `raise` becomes `Except.error` carrying the exception message, and the
  external collaborators (GitHub user lookup, ORCID extraction / search /
  validation) become fixed functions packaged in an `Env`;
* the `update_cff` loop over the contributor set becomes `merge_fold`,
  a fold over an explicit iteration order (a `List Contributor`), and
  the returned `missing_authors` set becomes a filtered list.
-/

/-! ## Python string primitives -/

/-- The whitespace characters stripped by Python `str.strip()`. -/
def isWs (c : Char) : Bool :=
  c = ' ' || c = '\t' || c = '\n' || c = '\r' || c = '\x0b' || c = '\x0c'

/-- ASCII uppercase/lowercase letter pairs. -/
def lowerPairs : List (Char × Char) :=
  [('A', 'a'), ('B', 'b'), ('C', 'c'), ('D', 'd'), ('E', 'e'), ('F', 'f'),
   ('G', 'g'), ('H', 'h'), ('I', 'i'), ('J', 'j'), ('K', 'k'), ('L', 'l'),
   ('M', 'm'), ('N', 'n'), ('O', 'o'), ('P', 'p'), ('Q', 'q'), ('R', 'r'),
   ('S', 's'), ('T', 't'), ('U', 'u'), ('V', 'v'), ('W', 'w'), ('X', 'x'),
   ('Y', 'y'), ('Z', 'z')]

/-- Lowercase a single character (ASCII model of Python `casefold`). -/
def lowerChar (c : Char) : Char :=
  match lowerPairs.find? (fun p => p.1 = c) with
  | some p => p.2
  | none => c

/-- Strip leading and trailing whitespace from a character list. -/
def pyStripList (l : List Char) : List Char :=
  ((l.dropWhile isWs).reverse.dropWhile isWs).reverse

/-- Model of Python `str.strip()`. -/
def pyStrip (s : String) : String := String.mk (pyStripList s.data)

/-- Model of Python `str.casefold()` (restricted to ASCII case mapping). -/
def pyCasefold (s : String) : String := String.mk (s.data.map lowerChar)

/-- Model of the compound `s.casefold().strip()` used by `is_same_person`. -/
def pyNorm (s : String) : String := pyStrip (pyCasefold s)

/-- Model of the compound `s.strip().casefold()` used by the name/email scan. -/
def stripCasefold (s : String) : String := pyCasefold (pyStrip s)

/-- Model of Python `s.split(" ", 1)`: the part before the first space
character, and, when a space occurs, the remainder after it. -/
def splitOnceAux : List Char → List Char → Option (List Char × List Char)
  | [], _ => none
  | c :: rest, acc => if c = ' ' then some (acc.reverse, rest) else splitOnceAux rest (c :: acc)

/-- `split_first_space s = (s, none)` when `s` has no space, otherwise the
prefix before the first space together with `some` remainder. -/
def split_first_space (s : String) : String × Option String :=
  match splitOnceAux s.data [] with
  | none => (s, none)
  | some (a, b) => (String.mk a, some (String.mk b))

/-- Python truthiness of an optional string: present and non-empty. -/
def optTruthy : Option String → Bool
  | none => false
  | some s => s ≠ ""

/-- Python `x or d` for an optional string `x` against a default `d`. -/
def pythonOr (o : Option String) (d : String) : String :=
  match o with
  | some s => if s ≠ "" then s else d
  | none => d

/-- Python `d.get(k, "")`: the field's value, or `""` when absent. -/
def fget (o : Option String) : String := o.getD ""

/-! ## Data model -/

/-- One author entry of the CFF file: a Python dict with the keys the
manager reads or writes, `none` meaning the key is absent.  The source's
`alias` key is spelled `alias_` because `alias` is a Lean keyword. -/
structure AuthorRecord where
  name : Option String := none
  given_names : Option String := none
  family_names : Option String := none
  email : Option String := none
  orcid : Option String := none
  alias_ : Option String := none
deriving DecidableEq, Repr

/-- The three classifications of `get_cff_author_type`. -/
inductive AuthorType where
  | entity
  | person
  | unknown
deriving DecidableEq, Repr

/-- A contributor signal: a GitHub handle string, or a `(name, email)`
tuple taken from commit metadata. -/
inductive Contributor where
  | handle (h : String)
  | nameEmail (name email : String)
deriving DecidableEq, Repr

/-! ## AuthorTypeClassifier: `get_cff_author_type` (lines 94-100) -/

/-- `get_cff_author_type`: `name` present means entity; otherwise both
`given-names` and `family-names` present means person; otherwise unknown. -/
def get_cff_author_type (author : AuthorRecord) : AuthorType :=
  if author.name.isSome then AuthorType.entity
  else if author.given_names.isSome && author.family_names.isSome then AuthorType.person
  else AuthorType.unknown

/-! ## IdentityMatcher: `is_same_person` (lines 48-92) -/

/-- One field-comparison disjunct of `is_same_person`: normalized values
equal, and the left value non-empty after stripping. -/
def field_contrib (x y : Option String) : Bool :=
  pyNorm (fget x) == pyNorm (fget y) && pyStrip (fget x) != ""

/-- The entity/entity branch of `is_same_person`: match on `name` or on
`alias`. -/
def entity_match (a b : AuthorRecord) : Bool :=
  field_contrib a.name b.name || field_contrib a.alias_ b.alias_

/-- The normalized full name `f"{given} {family}".strip()` built from the
casefold-stripped name parts, as in the person/person branch. -/
def full_name_key (a : AuthorRecord) : String :=
  pyStrip (pyNorm (fget a.given_names) ++ " " ++ pyNorm (fget a.family_names))

/-- The person/person branch of `is_same_person`: match on `alias`,
`email`, `orcid`, or the combined full name. -/
def person_match (a b : AuthorRecord) : Bool :=
  field_contrib a.alias_ b.alias_ || field_contrib a.email b.email ||
  field_contrib a.orcid b.orcid ||
  (full_name_key a == full_name_key b && full_name_key a != "")

/-- `is_same_person`: raises on unknown classification, returns `false`
across different types, otherwise compares by the type's field rules. -/
def is_same_person (a b : AuthorRecord) : Except String Bool :=
  let aT := get_cff_author_type a
  let bT := get_cff_author_type b
  if aT = AuthorType.unknown ∨ bT = AuthorType.unknown then
    Except.error "Cannot compare unknown author types."
  else if aT ≠ bT then Except.ok false
  else if aT = AuthorType.entity then Except.ok (entity_match a b)
  else Except.ok (person_match a b)

/-! ## Provenance notes: `get_contribution_note_for_warning` (lines 102-170) -/

/-- The ordered contribution categories scanned for the provenance note. -/
def contribution_categories : List (String × String) :=
  [("commits", "Commit"), ("pr_comments", "Pull Request Comment"),
   ("reviews", "Review"), ("issues", "Issue"), ("issue_comments", "Issue Comment")]

/-- The contribution-details mapping: per contributor, per category name,
the ordered list of reference strings (`[]` models a missing key). -/
def ContributionDetails : Type := Contributor → String → List String

/-- The first seven characters of a string (Python `s[:7]`). -/
def pyTake7 (s : String) : String := String.mk (s.data.take 7)

/-- `get_contribution_note_for_warning`: format the contributor prefix
(raising on an all-empty contributor), then cite the first non-empty
contribution category (raising when there is none). -/
def get_contribution_note_for_warning (contributor : Contributor)
    (contribution_details : ContributionDetails) (repo_for_compare : String) :
    Except String String :=
  let prefixPart : Except String String :=
    match contributor with
    | Contributor.nameEmail n e =>
      if e ≠ "" ∧ n ≠ "" then Except.ok ("- `" ++ n ++ " <" ++ e ++ ">`: ")
      else if n ≠ "" then Except.ok ("- `" ++ n ++ "`: ")
      else if e ≠ "" then Except.ok ("- `" ++ e ++ "`: ")
      else Except.error "Contributor tuple must contain at least one non-empty string."
    | Contributor.handle h =>
      if h ≠ "" then Except.ok ("- @" ++ h ++ ": ")
      else Except.error "Contributor name must be a non-empty string."
  match prefixPart with
  | Except.error m => Except.error m
  | Except.ok note =>
    match contribution_categories.find?
        (fun cat => decide (0 < (contribution_details contributor cat.1).length)) with
    | some cat =>
      let first := (contribution_details contributor cat.1).headD ""
      if cat.1 = "commits" then
        Except.ok (note ++ "Commit: [`" ++ pyTake7 first ++ "`](https://github.com/" ++
          repo_for_compare ++ "/commit/" ++ first ++ ")")
      else
        Except.ok (note ++ "[" ++ cat.2 ++ "](" ++ first ++ ")")
    | none => Except.error "No contribution found for the contributor."

/-! ## External collaborators (fixed lookup results) -/

/-- The JSON fields of a successful GitHub user lookup that `update_cff`
reads: `type`, `name`, `email`, `bio`. -/
structure GithubUser where
  type : Option String := none
  name : Option String := none
  email : Option String := none
  bio : Option String := none
deriving DecidableEq, Repr

/-- Outcome of `requests.get` on the user URL: a non-200 status code, or
a user object. -/
inductive GithubResp where
  | failure (status : Nat)
  | success (user : GithubUser)
deriving Repr

/-- The fixed external-lookup results a merge run consumes: the GitHub
user lookup and the ORCID manager's three operations. -/
structure Env where
  github : String → GithubResp
  extract_orcid : Option String → Option String
  search_orcid : String → Option String → Option String
  validate_orcid : String → Bool

/-! ## EntryBuilder: the per-signal construction in `update_cff` -/

/-- Outcome of building a candidate record for one signal: `skip` models
the `continue` paths that produce no record. -/
inductive BuildOutcome where
  | skip
  | entry (e : AuthorRecord)
deriving DecidableEq, Repr

/-- Append the ORCID-resolution outcome to a person entry, as in lines
286-293 and 339-346: a valid identifier is stored as an URL, an invalid
one warned about, an absent one warned about. -/
def apply_orcid (env : Env) (orcid : Option String) (e : AuthorRecord)
    (who : String) : AuthorRecord × List String :=
  if optTruthy orcid && env.validate_orcid (fget orcid) then
    ({ e with orcid := some ("https://orcid.org/" ++ fget orcid) }, [])
  else if optTruthy orcid then
    (e, [who ++ ": ORCID `" ++ fget orcid ++ "` is invalid or unreachable."])
  else
    (e, [who ++ ": No ORCID found."])

/-- The GitHub-handle branch of the loop body (lines 229-293). -/
def build_handle (env : Env) (h : String) (note : String) :
    BuildOutcome × List String :=
  match env.github h with
  | GithubResp.failure status =>
    (BuildOutcome.skip,
     ["- @" ++ h ++ ": Unable to fetch user data from GitHub API. Status code: " ++
      toString status ++ note])
  | GithubResp.success user =>
    let user_profile_url := "https://github.com/" ++ pyStrip (pyCasefold h)
    if user.type = some "Organization" then
      (BuildOutcome.entry
        { name := some (pythonOr user.name h), alias_ := some user_profile_url,
          email := if optTruthy user.email then user.email else none }, [])
    else
      let full_name := pythonOr user.name h
      match split_first_space full_name with
      | (p0, some p1) =>
        let e0 : AuthorRecord :=
          { given_names := some p0, family_names := some p1,
            alias_ := some user_profile_url,
            email := if optTruthy user.email then user.email else none }
        let orcid0 := env.extract_orcid user.bio
        let orcid := if !optTruthy orcid0 && full_name ≠ "" then
            env.search_orcid full_name user.email else orcid0
        let (e1, ws) := apply_orcid env orcid e0 ("- @" ++ h)
        (BuildOutcome.entry e1, ws)
      | (_, none) =>
        (BuildOutcome.entry { name := some full_name, alias_ := some user_profile_url },
         ["- @" ++ h ++ ": Only one name part found, treated as entity for deduplication consistency." ++ note])

/-- The scan of lines 302-321: the first existing author carrying
`given-names`, `family-names` and `email` whose rendered full name and
email both strip-casefold-equal the input pair. -/
def find_matching_person (authors : List AuthorRecord) (name email : String) :
    Option AuthorRecord :=
  authors.find? (fun ex =>
    ex.given_names.isSome && ex.family_names.isSome && ex.email.isSome &&
    (stripCasefold (fget ex.given_names ++ " " ++ fget ex.family_names) ==
      stripCasefold name) &&
    (stripCasefold (fget ex.email) == stripCasefold email))

/-- The name/email-tuple branch of the loop body (lines 295-355). -/
def build_name_email (env : Env) (authors : List AuthorRecord)
    (name email note : String) : BuildOutcome × List String :=
  match find_matching_person authors name email with
  | none =>
    if pyStrip name = "" then
      (BuildOutcome.skip,
       ["- Commit author with email `" ++ email ++ "` has no name and was skipped." ++ note])
    else
      (BuildOutcome.entry
        { name := some name, email := if email ≠ "" then some email else none }, [])
  | some ex =>
    let e0 : AuthorRecord :=
      { given_names := ex.given_names, family_names := ex.family_names,
        email := ex.email, orcid := ex.orcid }
    match split_first_space name with
    | (p0, some p1) =>
      let e1 := { e0 with given_names := some p0, family_names := some p1 }
      let e2 := if email ≠ "" then { e1 with email := some email } else e1
      let orcid := env.search_orcid name (some email)
      let (e3, ws) := apply_orcid env orcid e2 ("- `" ++ name ++ "`")
      (BuildOutcome.entry e3, ws)
    | (_, none) =>
      let e1 := { e0 with name := some name }
      let e2 := if email ≠ "" then { e1 with email := some email } else e1
      (BuildOutcome.entry e2,
       ["- `" ++ name ++ "`: Only one name part found, treated as entity for deduplication consistency." ++ note])

/-- Build the candidate record and build-phase warnings for one signal. -/
def build_contributor (env : Env) (authors : List AuthorRecord)
    (c : Contributor) (note : String) : BuildOutcome × List String :=
  match c with
  | Contributor.handle h => build_handle env h note
  | Contributor.nameEmail n e => build_name_email env authors n e note

/-- The `identifier` used in the "Already exists" warning: the casefolded
handle, or the email (falling back to the casefolded name). -/
def contributor_identifier (c : Contributor) : String :=
  match c with
  | Contributor.handle h => pyCasefold h
  | Contributor.nameEmail n e => if e ≠ "" then e else pyCasefold n

/-! ## MergeOrchestrator: the `update_cff` loop (lines 219-362, 386) -/

/-- `any(self.is_same_person(a, entry) for a in authors)`: short-circuit
scan, propagating the `ValueError` raised on an unknown record. -/
def any_same_person (authors : List AuthorRecord) (e : AuthorRecord) :
    Except String Bool :=
  match authors with
  | [] => Except.ok false
  | a :: rest =>
    match is_same_person a e with
    | Except.error m => Except.error m
    | Except.ok true => Except.ok true
    | Except.ok false => any_same_person rest e

/-- The state threaded through the merge loop: the working author list,
the contributors found to be already present, and the warnings. -/
structure MergeState where
  authors : List AuthorRecord
  already : List Contributor
  warnings : List String
deriving DecidableEq, Repr

/-- One iteration of the `update_cff` loop: compute the provenance note
(whose failure aborts the run), build the candidate, then deduplicate
against the current list and append or record the signal as already
present. -/
def process_contributor (env : Env) (details : ContributionDetails)
    (repo_for_compare : String) (st : MergeState) (c : Contributor) :
    Except String MergeState :=
  match get_contribution_note_for_warning c details repo_for_compare with
  | Except.error m => Except.error m
  | Except.ok note =>
    match build_contributor env st.authors c note with
    | (BuildOutcome.skip, ws) => Except.ok { st with warnings := st.warnings ++ ws }
    | (BuildOutcome.entry e, ws) =>
      match any_same_person st.authors e with
      | Except.error m => Except.error m
      | Except.ok true =>
        Except.ok { st with
          already := st.already ++ [c],
          warnings := st.warnings ++ ws ++
            ["- " ++ contributor_identifier c ++ ": Already exists in CFF file."] }
      | Except.ok false =>
        Except.ok { st with
          authors := st.authors ++ [e],
          warnings := st.warnings ++ ws }

/-- Serial fold of `process_contributor` over the iteration order. -/
def merge_fold (env : Env) (details : ContributionDetails)
    (repo_for_compare : String) : List Contributor → MergeState →
    Except String MergeState
  | [], st => Except.ok st
  | c :: rest, st =>
    match process_contributor env details repo_for_compare st c with
    | Except.error m => Except.error m
    | Except.ok st' => merge_fold env details repo_for_compare rest st'

/-- The whole merge run of `update_cff` over a baseline author list. -/
def update_cff_run (env : Env) (details : ContributionDetails)
    (repo_for_compare : String) (baseline : List AuthorRecord)
    (contributors : List Contributor) : Except String MergeState :=
  merge_fold env details repo_for_compare contributors
    { authors := baseline, already := [], warnings := [] }

/-- `missing_authors = contributors - already_in_cff_contributors`
(line 386), the set the run returns. -/
def missing_authors (contributors : List Contributor) (st : MergeState) :
    List Contributor :=
  contributors.filter (fun c => decide (c ∉ st.already))

/-! ## Normalization and symmetry lemmas -/

theorem isWs_lowerChar (c : Char) : isWs (lowerChar c) = isWs c := by
  unfold lowerChar
  cases h : lowerPairs.find? (fun p => p.1 = c) with
  | none => rfl
  | some p =>
    have hm := List.mem_of_find?_eq_some h
    have he := List.find?_some h
    simp at he
    subst he
    fin_cases hm <;> rfl

theorem isWs_comp_lowerChar : (isWs ∘ lowerChar) = isWs :=
  funext fun c => isWs_lowerChar c

theorem pyStripList_map_lower (l : List Char) :
    pyStripList (l.map lowerChar) = (pyStripList l).map lowerChar := by
  unfold pyStripList
  rw [List.dropWhile_map, isWs_comp_lowerChar, ← List.map_reverse,
    List.dropWhile_map, isWs_comp_lowerChar, ← List.map_reverse]

theorem pyStrip_empty_iff (s : String) : pyStrip s = "" ↔ pyNorm s = "" := by
  show String.mk (pyStripList s.data) = "" ↔
    String.mk (pyStripList (s.data.map lowerChar)) = ""
  rw [pyStripList_map_lower, String.ext_iff, String.ext_iff]
  show pyStripList s.data = [] ↔ (pyStripList s.data).map lowerChar = []
  rw [List.map_eq_nil_iff]

theorem field_contrib_comm (x y : Option String) :
    field_contrib x y = field_contrib y x := by
  unfold field_contrib
  by_cases h : pyNorm (fget x) = pyNorm (fget y)
  · have h2 : (pyStrip (fget x) = "") ↔ (pyStrip (fget y) = "") := by
      rw [pyStrip_empty_iff, pyStrip_empty_iff, h]
    by_cases hx : pyStrip (fget x) = ""
    · simp [h, hx, h2.mp hx]
    · have hy : ¬pyStrip (fget y) = "" := fun hy => hx (h2.mpr hy)
      have hx' : (pyStrip (fget x) == "") = false := beq_eq_false_iff_ne.mpr hx
      have hy' : (pyStrip (fget y) == "") = false := beq_eq_false_iff_ne.mpr hy
      rw [h]
      show (_ && !(pyStrip (fget x) == "")) = (_ && !(pyStrip (fget y) == ""))
      rw [hx', hy']
  · have h1 : (pyNorm (fget x) == pyNorm (fget y)) = false := beq_eq_false_iff_ne.mpr h
    have h2 : (pyNorm (fget y) == pyNorm (fget x)) = false := beq_eq_false_iff_ne.mpr (Ne.symm h)
    rw [h1, h2]
    simp

theorem entity_match_comm (a b : AuthorRecord) :
    entity_match a b = entity_match b a := by
  unfold entity_match
  rw [field_contrib_comm a.name b.name, field_contrib_comm a.alias_ b.alias_]

theorem person_match_comm (a b : AuthorRecord) :
    person_match a b = person_match b a := by
  unfold person_match
  rw [field_contrib_comm a.alias_ b.alias_, field_contrib_comm a.email b.email,
    field_contrib_comm a.orcid b.orcid]
  by_cases h : full_name_key a = full_name_key b
  · rw [h]
  · have h1 : (full_name_key a == full_name_key b) = false := beq_eq_false_iff_ne.mpr h
    have h2 : (full_name_key b == full_name_key a) = false := beq_eq_false_iff_ne.mpr (Ne.symm h)
    rw [h1, h2]
    simp

theorem is_same_person_comm (a b : AuthorRecord) :
    is_same_person a b = is_same_person b a := by
  unfold is_same_person
  by_cases ha : get_cff_author_type a = AuthorType.unknown <;>
    by_cases hb : get_cff_author_type b = AuthorType.unknown
  · simp [ha, hb]
  · simp [ha, hb]
  · simp [ha, hb]
  · by_cases hab : get_cff_author_type a = get_cff_author_type b
    · by_cases hent : get_cff_author_type a = AuthorType.entity
      · simp [ha, hb, hab, hent, hab ▸ hent, entity_match_comm]
      · simp [ha, hb, hab, hent, hab ▸ hent, person_match_comm]
    · simp [ha, hb, hab, Ne.symm hab]

/-! ## Claim theorems: classifier and matcher -/

/-- Helper: a field that is empty after stripping on either side never
makes its comparison disjunct true. -/
theorem field_contrib_empty (x y : Option String)
    (h : pyStrip (fget x) = "" ∨ pyStrip (fget y) = "") :
    field_contrib x y = false := by
  unfold field_contrib
  rcases h with hx | hy
  · simp [hx]
  · by_cases heq : pyNorm (fget x) = pyNorm (fget y)
    · have hx : pyStrip (fget x) = "" := by
        rw [pyStrip_empty_iff, heq, ← pyStrip_empty_iff]
        exact hy
      simp [hx]
    · simp [beq_eq_false_iff_ne.mpr heq]

/-- A record with both the entity field and the person fields. -/
def mixedRecord : AuthorRecord :=
  { name := some "ACME", given_names := some "Ada", family_names := some "Lovelace" }

/-- A plain person record. -/
def adaPerson : AuthorRecord :=
  { given_names := some "Ada", family_names := some "Lovelace" }

/-- A plain entity record. -/
def acmeEntity : AuthorRecord := { name := some "ACME" }

/-- A person with a whitespace-only email. -/
def adaBlankEmail : AuthorRecord :=
  { given_names := some "Ada", family_names := some "Lovelace", email := some " " }

/-- The same person spelled with different case and spacing, no email. -/
def adaCased : AuthorRecord :=
  { given_names := some " ada", family_names := some "LOVELACE" }

/-- C5: classification follows the ordered rule: a present `name` field
gives Entity (even when the person fields are also present), otherwise
both `given-names` and `family-names` give Person, otherwise Unknown. -/
theorem C5_classification_rule (a : AuthorRecord) :
    (a.name.isSome = true → get_cff_author_type a = AuthorType.entity) ∧
    (a.name = none → a.given_names.isSome = true → a.family_names.isSome = true →
      get_cff_author_type a = AuthorType.person) ∧
    (a.name = none → (a.given_names = none ∨ a.family_names = none) →
      get_cff_author_type a = AuthorType.unknown) := by
  refine ⟨fun h => ?_, fun hn hg hf => ?_, fun hn hgf => ?_⟩
  · simp [get_cff_author_type, h]
  · simp [get_cff_author_type, hn, hg, hf]
  · rcases hgf with h | h <;> simp [get_cff_author_type, hn, h]

/-- Witness for C5 at concrete records, among them a record carrying both
`name` and the person fields, which classifies as Entity. -/
theorem C5_classification_rule_witness :
    get_cff_author_type mixedRecord = AuthorType.entity ∧
    get_cff_author_type adaPerson = AuthorType.person ∧
    get_cff_author_type { given_names := some "Ada" } = AuthorType.unknown :=
  ⟨(C5_classification_rule mixedRecord).1 rfl,
   (C5_classification_rule adaPerson).2.1 rfl rfl rfl,
   (C5_classification_rule _).2.2 rfl (Or.inr rfl)⟩

/-- C6: comparing any pair in which either record classifies as Unknown
raises the `ValueError`, never returning a boolean. -/
theorem C6_unknown_comparison_raises (a b : AuthorRecord)
    (h : get_cff_author_type a = AuthorType.unknown ∨
      get_cff_author_type b = AuthorType.unknown) :
    is_same_person a b = Except.error "Cannot compare unknown author types." := by
  unfold is_same_person
  rw [if_pos h]

/-- Witness for C6: the empty record against a well-formed person. -/
theorem C6_unknown_comparison_raises_witness :
    is_same_person {} adaPerson =
      Except.error "Cannot compare unknown author types." :=
  C6_unknown_comparison_raises {} adaPerson (Or.inl rfl)

/-- C9: `is_same_person` is symmetric on valid (non-Unknown) records,
across variants and one-sided fields alike. -/
theorem C9_symmetric (a b : AuthorRecord)
    (ha : get_cff_author_type a ≠ AuthorType.unknown)
    (hb : get_cff_author_type b ≠ AuthorType.unknown) :
    is_same_person a b = is_same_person b a :=
  is_same_person_comm a b

/-- Witness for C9 at an entity/person pair. -/
theorem C9_symmetric_witness :
    is_same_person acmeEntity adaPerson = is_same_person adaPerson acmeEntity :=
  C9_symmetric acmeEntity adaPerson (by decide) (by decide)

/-- C8: a post-trim-empty field on either side contributes no match, and
two Person records whose `email` fields are empty never match solely on
email: a positive comparison must come from alias, orcid, or full name. -/
theorem C8_empty_field_never_matches (x y : Option String) (a b : AuthorRecord)
    (hxy : pyStrip (fget x) = "" ∨ pyStrip (fget y) = "")
    (ha : pyStrip (fget a.email) = "") (hb : pyStrip (fget b.email) = "")
    (hta : get_cff_author_type a = AuthorType.person)
    (htb : get_cff_author_type b = AuthorType.person) :
    field_contrib x y = false ∧
    field_contrib a.email b.email = false ∧
    (is_same_person a b = Except.ok true →
      field_contrib a.alias_ b.alias_ = true ∨ field_contrib a.orcid b.orcid = true ∨
      (full_name_key a = full_name_key b ∧ full_name_key a ≠ "")) := by
  refine ⟨field_contrib_empty x y hxy, field_contrib_empty a.email b.email (Or.inl ha),
    fun hmatch => ?_⟩
  have hps : is_same_person a b = Except.ok (person_match a b) := by
    unfold is_same_person
    rw [hta, htb]
    rfl
  rw [hps] at hmatch
  have hpm : person_match a b = true := by injection hmatch
  unfold person_match at hpm
  rw [field_contrib_empty a.email b.email (Or.inl ha)] at hpm
  simp only [Bool.or_eq_true, Bool.and_eq_true, beq_iff_eq, bne_iff_ne, Bool.false_or] at hpm
  tauto

/-- Witness for C8: two persons with a whitespace and an absent email. -/
theorem C8_empty_field_never_matches_witness :
    field_contrib (some " ") none = false ∧
    field_contrib adaBlankEmail.email adaCased.email = false ∧
    (is_same_person adaBlankEmail adaCased = Except.ok true →
      field_contrib adaBlankEmail.alias_ adaCased.alias_ = true ∨
      field_contrib adaBlankEmail.orcid adaCased.orcid = true ∨
      (full_name_key adaBlankEmail = full_name_key adaCased ∧
       full_name_key adaBlankEmail ≠ "")) :=
  C8_empty_field_never_matches (some " ") none adaBlankEmail adaCased
    (Or.inl rfl) rfl rfl rfl rfl

/-! ## Merge-loop structural lemmas -/

theorem any_same_person_ok_false (l : List AuthorRecord) (e : AuthorRecord)
    (h : any_same_person l e = Except.ok false) :
    ∀ a ∈ l, is_same_person a e = Except.ok false := by
  induction l with
  | nil => intro a ha; cases ha
  | cons x xs ih =>
    intro a ha
    unfold any_same_person at h
    cases hx : is_same_person x e with
    | error m => rw [hx] at h; cases h
    | ok b =>
      cases b
      · rw [hx] at h
        rcases List.mem_cons.mp ha with rfl | hmem
        · exact hx
        · exact ih h a hmem
      · rw [hx] at h; simp at h

theorem process_contributor_cases (env : Env) (details : ContributionDetails)
    (repo : String) (st : MergeState) (c : Contributor) (st' : MergeState)
    (h : process_contributor env details repo st c = Except.ok st') :
    (st'.authors = st.authors ∧ st'.already = st.already) ∨
    (st'.authors = st.authors ∧ st'.already = st.already ++ [c]) ∨
    (∃ e, st'.authors = st.authors ++ [e] ∧
      any_same_person st.authors e = Except.ok false ∧ st'.already = st.already) := by
  unfold process_contributor at h
  split at h
  · cases h
  · split at h
    · injection h with h'
      rw [← h']
      exact Or.inl ⟨rfl, rfl⟩
    · split at h
      · cases h
      · injection h with h'
        rw [← h']
        exact Or.inr (Or.inl ⟨rfl, rfl⟩)
      · injection h with h'
        rw [← h']
        refine Or.inr (Or.inr ⟨_, rfl, ?_, rfl⟩)
        assumption

/-- The pairwise-distinctness invariant the merge is meant to preserve. -/
def NoDuplicates (l : List AuthorRecord) : Prop :=
  List.Pairwise (fun a b => is_same_person a b = Except.ok false) l

theorem process_preserves_nodup (env : Env) (details : ContributionDetails)
    (repo : String) (st : MergeState) (c : Contributor) (st' : MergeState)
    (h : process_contributor env details repo st c = Except.ok st')
    (hst : NoDuplicates st.authors) : NoDuplicates st'.authors := by
  rcases process_contributor_cases env details repo st c st' h with
    ⟨ha, _⟩ | ⟨ha, _⟩ | ⟨e, ha, hany, _⟩
  · rw [ha]; exact hst
  · rw [ha]; exact hst
  · rw [ha]
    unfold NoDuplicates at hst ⊢
    rw [List.pairwise_append]
    refine ⟨hst, by simp, ?_⟩
    intro a haMem b hbMem
    rw [List.mem_singleton] at hbMem
    subst hbMem
    exact any_same_person_ok_false st.authors b hany a haMem

theorem merge_fold_nodup (env : Env) (details : ContributionDetails) (repo : String)
    (l : List Contributor) (st st' : MergeState)
    (h : merge_fold env details repo l st = Except.ok st')
    (hst : NoDuplicates st.authors) : NoDuplicates st'.authors := by
  induction l generalizing st with
  | nil =>
    unfold merge_fold at h
    injection h with h'
    rw [← h']
    exact hst
  | cons c cs ih =>
    unfold merge_fold at h
    cases hp : process_contributor env details repo st c with
    | error m => rw [hp] at h; cases h
    | ok st1 =>
      rw [hp] at h
      exact ih st1 h (process_preserves_nodup env details repo st c st1 hp hst)

/-! ## Concrete environments for witnesses and counterexamples -/

/-- Lookup environment of Scenario 1: handle `alice` resolves to a user
named "Alice Smith" with no email and no bio; no ORCID is ever found. -/
def env_alice : Env where
  github h := if h = "alice" then
    GithubResp.success { type := some "User", name := some "Alice Smith" }
    else GithubResp.failure 404
  extract_orcid _ := none
  search_orcid _ _ := none
  validate_orcid _ := false

/-- Contribution details giving every contributor one commit. -/
def d_commits : ContributionDetails :=
  fun _ cat => if cat = "commits" then ["deadbeefcafe"] else []

/-- The Person record built for `alice` in Scenario 1. -/
def aliceRec : AuthorRecord :=
  { given_names := some "Alice", family_names := some "Smith",
    alias_ := some "https://github.com/alice" }

/-- The final state of the Scenario-1 run. -/
def aliceState : MergeState :=
  { authors := [aliceRec], already := [], warnings := ["- @alice: No ORCID found."] }


theorem merge_fold_already_sub (env : Env) (details : ContributionDetails)
    (repo : String) (l : List Contributor) (st st' : MergeState)
    (h : merge_fold env details repo l st = Except.ok st') :
    ∀ c, c ∈ st'.already → c ∈ st.already ∨ c ∈ l := by
  induction l generalizing st with
  | nil =>
    unfold merge_fold at h
    injection h with h'
    rw [← h']
    exact fun c hc => Or.inl hc
  | cons x xs ih =>
    intro c hc
    unfold merge_fold at h
    cases hp : process_contributor env details repo st x with
    | error m => rw [hp] at h; cases h
    | ok st1 =>
      rw [hp] at h
      rcases ih st1 h c hc with hc1 | hc1
      · rcases process_contributor_cases env details repo st x st1 hp with
          ⟨_, ha⟩ | ⟨_, ha⟩ | ⟨e, _, _, ha⟩
        · rw [ha] at hc1; exact Or.inl hc1
        · rw [ha] at hc1
          rcases List.mem_append.mp hc1 with hm | hm
          · exact Or.inl hm
          · rw [List.mem_singleton] at hm
            rw [hm]
            exact Or.inr (List.mem_cons_self x xs)
        · rw [ha] at hc1; exact Or.inl hc1
      · exact Or.inr (List.mem_cons_of_mem x hc1)

/-- C1: a merge run that succeeds on a baseline with no two records
satisfying the same-person predicate yields an author list in which no
pair of records, in either orientation, satisfies it. -/
theorem C1_merge_preserves_distinctness (env : Env) (details : ContributionDetails)
    (repo : String) (baseline : List AuthorRecord) (contributors : List Contributor)
    (st : MergeState)
    (hbase : NoDuplicates baseline)
    (hrun : update_cff_run env details repo baseline contributors = Except.ok st) :
    NoDuplicates st.authors ∧
    List.Pairwise (fun a b => is_same_person a b = Except.ok false ∧
      is_same_person b a = Except.ok false) st.authors := by
  have h1 : NoDuplicates st.authors :=
    merge_fold_nodup env details repo contributors _ st hrun hbase
  exact ⟨h1, h1.imp (fun hab => ⟨hab, (is_same_person_comm _ _).trans hab⟩)⟩

/-- Witness for C1: the Scenario-1 run on an empty baseline. -/
theorem C1_merge_preserves_distinctness_witness :
    NoDuplicates aliceState.authors ∧
    List.Pairwise (fun a b => is_same_person a b = Except.ok false ∧
      is_same_person b a = Except.ok false) aliceState.authors :=
  C1_merge_preserves_distinctness env_alice d_commits "o/r" [] [Contributor.handle "alice"]
    aliceState List.Pairwise.nil rfl

/-- C2 (amended): the returned set is the input signals minus those
marked already-present — nothing less and nothing more — and every
signal marked already-present is one of the input signals. -/
theorem C2_missing_is_complement_of_already (env : Env) (details : ContributionDetails)
    (repo : String) (baseline : List AuthorRecord) (contributors : List Contributor)
    (st : MergeState) (c : Contributor)
    (hrun : update_cff_run env details repo baseline contributors = Except.ok st) :
    (c ∈ missing_authors contributors st ↔ c ∈ contributors ∧ c ∉ st.already) ∧
    (c ∈ st.already → c ∈ contributors) := by
  constructor
  · unfold missing_authors
    rw [List.mem_filter]
    simp
  · intro hc
    rcases merge_fold_already_sub env details repo contributors _ st hrun c hc with h0 | h0
    · cases h0
    · exact h0

/-- Witness for C2 (amended) at the Scenario-1 run. -/
theorem C2_missing_is_complement_of_already_witness :
    ((Contributor.handle "alice" ∈ missing_authors [Contributor.handle "alice"] aliceState ↔
      Contributor.handle "alice" ∈ [Contributor.handle "alice"] ∧
      Contributor.handle "alice" ∉ aliceState.already) ∧
     (Contributor.handle "alice" ∈ aliceState.already →
      Contributor.handle "alice" ∈ [Contributor.handle "alice"])) :=
  C2_missing_is_complement_of_already env_alice d_commits "o/r" [] [Contributor.handle "alice"]
    aliceState (Contributor.handle "alice") rfl

/-- C2 counterexample: in the Scenario-1 run the single signal is
appended (the author list gains its record, nothing is marked already
present), yet the returned set contains that appended signal rather than
being empty. -/
theorem C2_counterexample :
    update_cff_run env_alice d_commits "o/r" [] [Contributor.handle "alice"] =
      Except.ok aliceState ∧
    aliceState.authors = [aliceRec] ∧ aliceState.already = [] ∧
    missing_authors [Contributor.handle "alice"] aliceState =
      [Contributor.handle "alice"] :=
  ⟨rfl, rfl, rfl, rfl⟩

/-! ## C7: per-signal lookup failure -/

/-- The warning text recorded for a failed GitHub lookup. -/
def failed_lookup_warning (h : String) (status : Nat) (note : String) : String :=
  "- @" ++ h ++ ": Unable to fetch user data from GitHub API. Status code: " ++
    toString status ++ note

theorem process_failed_handle (env : Env) (details : ContributionDetails)
    (repo : String) (st : MergeState) (h : String) (status : Nat) (note : String)
    (hg : env.github h = GithubResp.failure status)
    (hnote : get_contribution_note_for_warning (Contributor.handle h) details repo =
      Except.ok note) :
    process_contributor env details repo st (Contributor.handle h) =
      Except.ok { st with warnings := st.warnings ++ [failed_lookup_warning h status note] } := by
  simp only [process_contributor, build_contributor, build_handle, hnote, hg,
    failed_lookup_warning]

theorem merge_fold_failed_handle_not_already (env : Env) (details : ContributionDetails)
    (repo : String) (h : String) (status : Nat) (note : String)
    (hg : env.github h = GithubResp.failure status)
    (hnote : get_contribution_note_for_warning (Contributor.handle h) details repo =
      Except.ok note)
    (l : List Contributor) (st st' : MergeState)
    (hrun : merge_fold env details repo l st = Except.ok st')
    (hmem : Contributor.handle h ∉ st.already) :
    Contributor.handle h ∉ st'.already := by
  induction l generalizing st with
  | nil =>
    unfold merge_fold at hrun
    injection hrun with h'
    rw [← h']
    exact hmem
  | cons c cs ih =>
    unfold merge_fold at hrun
    cases hp : process_contributor env details repo st c with
    | error m => rw [hp] at hrun; cases hrun
    | ok st1 =>
      rw [hp] at hrun
      refine ih st1 hrun ?_
      by_cases hc : c = Contributor.handle h
      · subst hc
        rw [process_failed_handle env details repo st h status note hg hnote] at hp
        injection hp with hp'
        rw [← hp']
        exact hmem
      · rcases process_contributor_cases env details repo st c st1 hp with
          ⟨_, ha⟩ | ⟨_, ha⟩ | ⟨e, _, _, ha⟩
        · rw [ha]; exact hmem
        · rw [ha]
          intro hmm
          rcases List.mem_append.mp hmm with hm | hm
          · exact hmem hm
          · rw [List.mem_singleton] at hm
            exact hc hm.symm
        · rw [ha]; exact hmem

/-- C7: a failed profile lookup for a handle signal does not abort the
run: it only appends a warning carrying the status code and the
provenance note, produces no record, leaves the already-present set
unchanged, and in any successful run containing the signal the signal
ends up in the returned (unresolved) set. -/
theorem C7_lookup_failure_degrades (env : Env) (details : ContributionDetails)
    (repo : String) (h : String) (status : Nat) (note : String)
    (hg : env.github h = GithubResp.failure status)
    (hnote : get_contribution_note_for_warning (Contributor.handle h) details repo =
      Except.ok note) :
    (∀ st, process_contributor env details repo st (Contributor.handle h) =
      Except.ok { st with warnings := st.warnings ++ [failed_lookup_warning h status note] }) ∧
    (∀ baseline contributors st,
      update_cff_run env details repo baseline contributors = Except.ok st →
      Contributor.handle h ∈ contributors →
      Contributor.handle h ∈ missing_authors contributors st) := by
  refine ⟨fun st => process_failed_handle env details repo st h status note hg hnote,
    fun baseline contributors st hrun hmem => ?_⟩
  have hnot : Contributor.handle h ∉ st.already :=
    merge_fold_failed_handle_not_already env details repo h status note hg hnote
      contributors _ st hrun (by intro hx; cases hx)
  unfold missing_authors
  rw [List.mem_filter]
  exact ⟨hmem, by simpa using hnot⟩

/-- Environment in which every GitHub lookup fails with status 404. -/
def env_fail : Env where
  github _ := GithubResp.failure 404
  extract_orcid _ := none
  search_orcid _ _ := none
  validate_orcid _ := false

/-- The provenance note `d_commits` yields for the handle `ghost`. -/
def ghostNote : String :=
  "- @ghost: Commit: [`deadbee`](https://github.com/o/r/commit/deadbeefcafe)"

/-- The final state of the all-lookups-fail run on the single handle
`ghost`. -/
def ghostState : MergeState :=
  { authors := [], already := [],
    warnings := [failed_lookup_warning "ghost" 404 ghostNote] }

/-- Witness for C7: the failed-lookup run keeps `ghost` unappended and
reports it in the returned set. -/
theorem C7_lookup_failure_degrades_witness :
    Contributor.handle "ghost" ∈ missing_authors [Contributor.handle "ghost"] ghostState :=
  (C7_lookup_failure_degrades env_fail d_commits "o/r" "ghost" 404 ghostNote rfl rfl).2
    [] [Contributor.handle "ghost"] ghostState rfl (List.mem_cons_self _ _)

/-! ## C10: provenance-note failure aborts the run -/

theorem note_error_of_no_contribution (c : Contributor) (details : ContributionDetails)
    (repo : String)
    (hcond : (∀ p ∈ contribution_categories, details c p.1 = []) ∨
      c = Contributor.nameEmail "" "") :
    ∃ msg, get_contribution_note_for_warning c details repo = Except.error msg := by
  rcases hcond with hall | hempty
  · have hfind : contribution_categories.find?
        (fun cat => decide (0 < (details c cat.1).length)) = none := by
      rw [List.find?_eq_none]
      intro p hp
      simp [hall p hp]
    rcases c with h | ⟨n, e⟩
    · by_cases hh : h = ""
      · subst hh
        simp [get_contribution_note_for_warning, hfind]
      · simp [get_contribution_note_for_warning, hfind, hh]
    · by_cases hn : n = "" <;> by_cases he : e = ""
      · subst hn
        subst he
        simp [get_contribution_note_for_warning, hfind]
      · subst hn
        simp [get_contribution_note_for_warning, hfind, he]
      · subst he
        simp [get_contribution_note_for_warning, hfind, hn]
      · simp [get_contribution_note_for_warning, hfind, hn, he]
  · subst hempty
    exact ⟨_, rfl⟩

theorem merge_fold_error_of_mem (env : Env) (details : ContributionDetails)
    (repo : String) (c : Contributor) (l : List Contributor)
    (hc : c ∈ l)
    (herr : ∀ st, ∃ msg, process_contributor env details repo st c = Except.error msg) :
    ∀ st st', merge_fold env details repo l st ≠ Except.ok st' := by
  induction l with
  | nil => cases hc
  | cons x xs ih =>
    intro st st' hrun
    unfold merge_fold at hrun
    rcases List.mem_cons.mp hc with rfl | hmem
    · rcases herr st with ⟨msg, hmsg⟩
      rw [hmsg] at hrun
      cases hrun
    · cases hp : process_contributor env details repo st x with
      | error m => rw [hp] at hrun; cases hrun
      | ok st1 =>
        rw [hp] at hrun
        exact ih hmem st1 st' hrun

/-- C10: the provenance note is computed first for each signal, so a
contributor with no non-empty contribution-category list (or an
all-empty name/email tuple) makes that signal's processing raise
immediately, and any run containing such a signal cannot succeed. -/
theorem C10_note_failure_fatal (env : Env) (details : ContributionDetails)
    (repo : String) (c : Contributor) (contributors : List Contributor)
    (hcond : (∀ p ∈ contribution_categories, details c p.1 = []) ∨
      c = Contributor.nameEmail "" "")
    (hc : c ∈ contributors) :
    (∀ st, ∃ msg, process_contributor env details repo st c = Except.error msg) ∧
    (∀ baseline st, update_cff_run env details repo baseline contributors ≠
      Except.ok st) := by
  have herr : ∀ st : MergeState, ∃ msg,
      process_contributor env details repo st c = Except.error msg := by
    intro st
    rcases note_error_of_no_contribution c details repo hcond with ⟨msg, hmsg⟩
    refine ⟨msg, ?_⟩
    unfold process_contributor
    rw [hmsg]
  exact ⟨herr, fun baseline st =>
    merge_fold_error_of_mem env details repo c contributors hc herr _ st⟩

/-- Witness for C10: the all-empty tuple signal makes its own processing
raise and the whole run fail. -/
theorem C10_note_failure_fatal_witness :
    (∃ msg, process_contributor env_alice d_commits "o/r"
      { authors := [], already := [], warnings := [] }
      (Contributor.nameEmail "" "") = Except.error msg) ∧
    update_cff_run env_alice d_commits "o/r" [] [Contributor.nameEmail "" ""] ≠
      Except.ok { authors := [], already := [], warnings := [] } :=
  ⟨(C10_note_failure_fatal env_alice d_commits "o/r" (Contributor.nameEmail "" "")
      [Contributor.nameEmail "" ""] (Or.inr rfl) (List.mem_cons_self _ _)).1
      { authors := [], already := [], warnings := [] },
   (C10_note_failure_fatal env_alice d_commits "o/r" (Contributor.nameEmail "" "")
      [Contributor.nameEmail "" ""] (Or.inr rfl) (List.mem_cons_self _ _)).2
      [] { authors := [], already := [], warnings := [] }⟩

/-! ## C3: iteration order affects final membership -/

/-- The profile of handle `bob`: user "Bob Lee" with email `bob@x.com`. -/
def bobUser : GithubUser :=
  { type := some "User", name := some "Bob Lee", email := some "bob@x.com" }

/-- Lookup environment in which handle `bob` resolves to `bobUser`. -/
def env_bob : Env where
  github h := if h = "bob" then GithubResp.success bobUser else GithubResp.failure 404
  extract_orcid _ := none
  search_orcid _ _ := none
  validate_orcid _ := false

/-- The Person record the handle signal `bob` builds. -/
def bobHandleRec : AuthorRecord :=
  { given_names := some "Bob", family_names := some "Lee",
    email := some "bob@x.com", alias_ := some "https://github.com/bob" }

/-- The Entity record the tuple signal ("Bob Lee", bob@x.com) builds when
processed against a list with no matching person yet. -/
def bobEntityRec : AuthorRecord :=
  { name := some "Bob Lee", email := some "bob@x.com" }

/-- C3 evaluation: the same two signals, processed in the two orders,
produce author lists with different membership — handle-first yields one
Person record and marks the tuple already-present, tuple-first yields an
Entity record and then appends the Person record beside it. -/
theorem C3_order_changes_membership :
    (update_cff_run env_bob d_commits "o/r" []
      [Contributor.handle "bob", Contributor.nameEmail "Bob Lee" "bob@x.com"]).map
        MergeState.authors = Except.ok [bobHandleRec] ∧
    (update_cff_run env_bob d_commits "o/r" []
      [Contributor.nameEmail "Bob Lee" "bob@x.com", Contributor.handle "bob"]).map
        MergeState.authors = Except.ok [bobEntityRec, bobHandleRec] ∧
    bobEntityRec ∉ [bobHandleRec] :=
  ⟨rfl, rfl, by decide⟩

/-! ## C4: the name/email pair matched against an existing person -/

/-- The candidate record the tuple branch hands to the dedup step, when
one is produced. -/
def candidate_entry (env : Env) (authors : List AuthorRecord)
    (name email note : String) : Option AuthorRecord :=
  match build_name_email env authors name email note with
  | (BuildOutcome.entry e, _) => some e
  | (BuildOutcome.skip, _) => none

/-- The ORCID stored by the matched tuple branch: when the fresh search
result is non-empty and validates, its URL form replaces the carried
value; otherwise the carried value stays (lines 338-346, acting on the
entry copied at lines 314-318). -/
def rederived_orcid (env : Env) (name email : String)
    (carried : Option String) : Option String :=
  let orcid := env.search_orcid name (some email)
  if optTruthy orcid && env.validate_orcid (fget orcid) then
    some ("https://orcid.org/" ++ fget orcid)
  else carried

/-- C4 (amended): when the scan finds an existing person whose full name
and email match the input pair, the candidate's `orcid` is exactly
`rederived_orcid`: the existing record's value is kept if and only if
the fresh identifier search yields nothing valid, and a valid fresh
identifier overrides it; a two-part input name re-derives `given-names`
and `family-names` from the input itself and takes the input email when
non-empty (the existing record's otherwise), classifying as Person,
while a one-part input name adds a `name` field on top of the copied
person fields, follows the same email rule, and classifies as Entity. -/
theorem C4_match_rederives_candidate (env : Env) (authors : List AuthorRecord)
    (name email note : String) (ex : AuthorRecord)
    (hmatch : find_matching_person authors name email = some ex) :
    (∀ p0 p1, split_first_space name = (p0, some p1) →
      (candidate_entry env authors name email note).map AuthorRecord.given_names =
        some (some p0) ∧
      (candidate_entry env authors name email note).map AuthorRecord.family_names =
        some (some p1) ∧
      (candidate_entry env authors name email note).map AuthorRecord.email =
        some (if email ≠ "" then some email else ex.email) ∧
      (candidate_entry env authors name email note).map AuthorRecord.name = some none ∧
      (candidate_entry env authors name email note).map get_cff_author_type =
        some AuthorType.person ∧
      (candidate_entry env authors name email note).map AuthorRecord.orcid =
        some (rederived_orcid env name email ex.orcid) ∧
      (optTruthy (env.search_orcid name (some email)) = false ∨
        env.validate_orcid (fget (env.search_orcid name (some email))) = false →
        (candidate_entry env authors name email note).map AuthorRecord.orcid =
          some ex.orcid) ∧
      (optTruthy (env.search_orcid name (some email)) = true ∧
        env.validate_orcid (fget (env.search_orcid name (some email))) = true →
        (candidate_entry env authors name email note).map AuthorRecord.orcid =
          some (some ("https://orcid.org/" ++
            fget (env.search_orcid name (some email)))))) ∧
    (∀ p0, split_first_space name = (p0, none) →
      (candidate_entry env authors name email note).map AuthorRecord.name =
        some (some name) ∧
      (candidate_entry env authors name email note).map get_cff_author_type =
        some AuthorType.entity ∧
      (candidate_entry env authors name email note).map AuthorRecord.given_names =
        some ex.given_names ∧
      (candidate_entry env authors name email note).map AuthorRecord.family_names =
        some ex.family_names ∧
      (candidate_entry env authors name email note).map AuthorRecord.email =
        some (if email ≠ "" then some email else ex.email) ∧
      (candidate_entry env authors name email note).map AuthorRecord.orcid =
        some ex.orcid) := by
  constructor
  · intro p0 p1 hsplit
    by_cases he : email = ""
    · subst he
      cases ho : env.search_orcid name (some "") with
      | none =>
        simp [candidate_entry, build_name_email, apply_orcid, rederived_orcid, hmatch, hsplit, ho,
          optTruthy, fget, get_cff_author_type]
      | some o =>
        by_cases hoe : o = ""
        · subst hoe
          simp [candidate_entry, build_name_email, apply_orcid, rederived_orcid, hmatch, hsplit, ho,
            optTruthy, fget, get_cff_author_type]
        · by_cases hv : env.validate_orcid o = true <;>
            simp [candidate_entry, build_name_email, apply_orcid, rederived_orcid, hmatch, hsplit, ho,
              hoe, hv, optTruthy, fget, get_cff_author_type]
    · cases ho : env.search_orcid name (some email) with
      | none =>
        simp [candidate_entry, build_name_email, apply_orcid, rederived_orcid, hmatch, hsplit, ho, he,
          optTruthy, fget, get_cff_author_type]
      | some o =>
        by_cases hoe : o = ""
        · subst hoe
          simp [candidate_entry, build_name_email, apply_orcid, rederived_orcid, hmatch, hsplit, ho, he,
            optTruthy, fget, get_cff_author_type]
        · by_cases hv : env.validate_orcid o = true <;>
            simp [candidate_entry, build_name_email, apply_orcid, rederived_orcid, hmatch, hsplit, ho,
              he, hoe, hv, optTruthy, fget, get_cff_author_type]
  · intro p0 hsplit
    by_cases he : email = ""
    · subst he
      simp [candidate_entry, build_name_email, hmatch, hsplit, get_cff_author_type]
    · simp [candidate_entry, build_name_email, hmatch, hsplit, he, get_cff_author_type]

/-- The baseline person record of the C4 scenario. -/
def bobBaselineRec : AuthorRecord :=
  { given_names := some "Bob", family_names := some "Lee", email := some "bob@x.com" }

/-- The candidate actually built from the differently-cased input pair. -/
def bobLowerRec : AuthorRecord :=
  { given_names := some "bob", family_names := some "lee", email := some "bob@x.com" }

/-- C4 counterexample: the scan matches the existing record, whose
given-names are "Bob", but the candidate carries given-names "bob"
re-derived from the differently-cased input name, so it does not carry
exactly the existing record's fields. -/
theorem C4_counterexample :
    find_matching_person [bobBaselineRec] "bob lee" "bob@x.com" = some bobBaselineRec ∧
    candidate_entry env_bob [bobBaselineRec] "bob lee" "bob@x.com" "" = some bobLowerRec ∧
    bobBaselineRec.given_names = some "Bob" ∧ bobLowerRec.given_names = some "bob" :=
  ⟨rfl, rfl, rfl, rfl⟩

/-- Witness for C4 (amended) at the concrete matched pair, in an
environment whose identifier search finds nothing, so the carried orcid
(here `none`) is kept. -/
theorem C4_match_rederives_candidate_witness :
    (candidate_entry env_bob [bobBaselineRec] "bob lee" "bob@x.com" "").map
      AuthorRecord.given_names = some (some "bob") ∧
    (candidate_entry env_bob [bobBaselineRec] "bob lee" "bob@x.com" "").map
      AuthorRecord.family_names = some (some "lee") ∧
    (candidate_entry env_bob [bobBaselineRec] "bob lee" "bob@x.com" "").map
      AuthorRecord.email =
        some (if "bob@x.com" ≠ "" then some "bob@x.com" else bobBaselineRec.email) ∧
    (candidate_entry env_bob [bobBaselineRec] "bob lee" "bob@x.com" "").map
      AuthorRecord.name = some none ∧
    (candidate_entry env_bob [bobBaselineRec] "bob lee" "bob@x.com" "").map
      get_cff_author_type = some AuthorType.person ∧
    (candidate_entry env_bob [bobBaselineRec] "bob lee" "bob@x.com" "").map
      AuthorRecord.orcid =
        some (rederived_orcid env_bob "bob lee" "bob@x.com" bobBaselineRec.orcid) ∧
    (optTruthy (env_bob.search_orcid "bob lee" (some "bob@x.com")) = false ∨
      env_bob.validate_orcid (fget (env_bob.search_orcid "bob lee" (some "bob@x.com"))) =
        false →
      (candidate_entry env_bob [bobBaselineRec] "bob lee" "bob@x.com" "").map
        AuthorRecord.orcid = some bobBaselineRec.orcid) ∧
    (optTruthy (env_bob.search_orcid "bob lee" (some "bob@x.com")) = true ∧
      env_bob.validate_orcid (fget (env_bob.search_orcid "bob lee" (some "bob@x.com"))) =
        true →
      (candidate_entry env_bob [bobBaselineRec] "bob lee" "bob@x.com" "").map
        AuthorRecord.orcid = some (some ("https://orcid.org/" ++
          fget (env_bob.search_orcid "bob lee" (some "bob@x.com"))))) :=
  (C4_match_rederives_candidate env_bob [bobBaselineRec] "bob lee" "bob@x.com" ""
    bobBaselineRec rfl).1 "bob" "lee" rfl
